import Mathlib

/-!
Shallow embedding of the starter-snake-node-ts Battlesnake server.

The repository contains two near-identical Express server variants
(src/unnamed/part_000 and src/unnamed/part_001) and two versions of the
type-declaration module (src/types.d.ts and src/unnamed/part_002).
Each server variant wires four routes:

  GET  /       -> handleIndex   (constant SnakeInfo, status 200)
  POST /start  -> handleStart   (text "ok", status 200)
  POST /move   -> handleMove    (random direction, status 200)
  POST /end    -> handleEnd     (text "ok", status 200)

Math.random() is embedded as a rational draw r with 0 <= r < 1;
JavaScript array indexing xs[i], which yields undefined out of bounds,
is embedded as an Option-valued lookup; the expression
"process.env.PORT || 3000" is embedded with JavaScript string truthiness
(the empty string is falsy). Request bodies are embedded as JSON values,
since the handlers receive whatever the body parser produced.
-/

namespace Battlesnake

/-- JSON values, the payloads body-parser hands to the handlers. -/
inductive Json where
  | null : Json
  | bool (b : Bool) : Json
  | num (q : ℚ) : Json
  | str (s : String) : Json
  | arr (elems : List Json) : Json
  | obj (fields : List (String × Json)) : Json

/-- Direction, the union of the four literals "up", "left", "down",
"right" (src/types.d.ts line 190). -/
inductive Direction where
  | up : Direction
  | left : Direction
  | down : Direction
  | right : Direction
deriving DecidableEq, Repr

/-- String literal each Direction value denotes in TypeScript. -/
def Direction.toString : Direction → String
  | .up => "up"
  | .left => "left"
  | .down => "down"
  | .right => "right"

/-- SnakeInfo (src/types.d.ts): optional fields are embedded as Options;
the cosmetic Heads/Tails string-literal unions are embedded as strings. -/
structure SnakeInfo where
  apiversion : String
  author : Option String
  color : Option String
  head : Option String
  tail : Option String
  version : Option String
deriving DecidableEq, Repr

/-- Move (src/types.d.ts), the move response body. The move field is an
Option because the handler fills it by JavaScript array indexing, which
can in principle produce undefined; shout is the optional field the
handlers never set. -/
structure Move where
  move : Option Direction
  shout : Option String
deriving DecidableEq, Repr

/-- Coordinates (src/types.d.ts): an integer pair. -/
structure Coordinates where
  x : Int
  y : Int
deriving DecidableEq, Repr

/-- Snake (src/unnamed/part_002, the richer of the two declaration
variants, where customizations references SnakeInfo). -/
structure Snake where
  id : String
  name : String
  health : Int
  body : List Coordinates
  latency : String
  head : Coordinates
  length : Int
  shout : String
  squad : String
  customizations : SnakeInfo
deriving DecidableEq, Repr

/-- Board (src/unnamed/part_002); the source spells the hazard field
harzards. -/
structure Board where
  height : Int
  width : Int
  food : List Coordinates
  harzards : List Coordinates
  snakes : List Snake
deriving DecidableEq, Repr

/-- RuleSet, the inline object type of the optional ruleset field of Game
(src/types.d.ts). -/
structure RuleSet where
  name : String
  version : String
deriving DecidableEq, Repr

/-- Game (src/types.d.ts). -/
structure Game where
  id : String
  ruleset : Option RuleSet
  timeout : Int
deriving DecidableEq, Repr

/-- GameState (src/types.d.ts). -/
structure GameState where
  game : Game
  turn : Int
  board : Board
  you : Snake
deriving DecidableEq, Repr

/-- JavaScript array indexing xs[i]: undefined (here none) whenever i is
negative or past the end of the array. -/
def arrayGet {α : Type} (xs : List α) (i : Int) : Option α :=
  if i < 0 then none else xs[i.toNat]?

/-- Array literal inside handleMove, the same in both server variants:
possibleMoves = ["up", "down", "left", "right"] typed Direction[]. -/
def possibleMoves : List Direction := [.up, .down, .left, .right]

/-- Embedding of possibleMoves[Math.floor(Math.random() * possibleMoves.length)]:
the draw r stands for the value of Math.random(), and
possibleMoves.length = 4. -/
def selectMove (r : ℚ) : Option Direction :=
  arrayGet possibleMoves ⌊r * 4⌋

/-- Value of the expression "process.env.PORT || 3000": either the string
from the environment or the numeric default. -/
inductive PortValue where
  | str (s : String) : PortValue
  | num (n : Nat) : PortValue
deriving DecidableEq, Repr

/-- Embedding of "const PORT = process.env.PORT || 3000" (line 6 of both
server variants). The environment is a map from variable names to
optional strings; JavaScript || takes the right operand exactly when the
left operand is falsy, and the falsy strings are undefined (none here)
and the empty string. -/
def PORT (env : String → Option String) : PortValue :=
  match env "PORT" with
  | some s => if s = "" then .num 3000 else .str s
  | none => .num 3000

/-- Requests the route table can dispatch: GET /, POST /start,
POST /move (which also consumes one random draw), POST /end. -/
inductive Req where
  | index (body : Json) : Req
  | start (body : Json) : Req
  | move (body : Json) (r : ℚ) : Req
  | endGame (body : Json) : Req

/-- Response bodies the four handlers can produce. -/
inductive RespBody where
  | info (i : SnakeInfo) : RespBody
  | text (s : String) : RespBody
  | moveResp (m : Move) : RespBody
deriving DecidableEq, Repr

/-- Helper for encoding an optional TypeScript field into JSON: an absent
field contributes nothing to the object. -/
def optField (k : String) : Option Json → List (String × Json)
  | some v => [(k, v)]
  | none => []

/-- JSON wire form of Coordinates. -/
def Coordinates.toJson (c : Coordinates) : Json :=
  .obj [("x", .num c.x), ("y", .num c.y)]

/-- JSON wire form of SnakeInfo. -/
def SnakeInfo.toJson (i : SnakeInfo) : Json :=
  .obj ([("apiversion", .str i.apiversion)]
    ++ optField "author" (i.author.map .str)
    ++ optField "color" (i.color.map .str)
    ++ optField "head" (i.head.map .str)
    ++ optField "tail" (i.tail.map .str)
    ++ optField "version" (i.version.map .str))

/-- JSON wire form of Snake. -/
def Snake.toJson (s : Snake) : Json :=
  .obj [("id", .str s.id), ("name", .str s.name), ("health", .num s.health),
    ("body", .arr (s.body.map Coordinates.toJson)),
    ("latency", .str s.latency), ("head", s.head.toJson),
    ("length", .num s.length), ("shout", .str s.shout),
    ("squad", .str s.squad), ("customizations", s.customizations.toJson)]

/-- JSON wire form of Board. -/
def Board.toJson (b : Board) : Json :=
  .obj [("height", .num b.height), ("width", .num b.width),
    ("food", .arr (b.food.map Coordinates.toJson)),
    ("harzards", .arr (b.harzards.map Coordinates.toJson)),
    ("snakes", .arr (b.snakes.map Snake.toJson))]

/-- JSON wire form of RuleSet. -/
def RuleSet.toJson (rs : RuleSet) : Json :=
  .obj [("name", .str rs.name), ("version", .str rs.version)]

/-- JSON wire form of Game. -/
def Game.toJson (g : Game) : Json :=
  .obj ([("id", .str g.id)]
    ++ optField "ruleset" (g.ruleset.map RuleSet.toJson)
    ++ [("timeout", .num g.timeout)])

/-- JSON wire form of GameState. -/
def GameState.toJson (gs : GameState) : Json :=
  .obj [("game", gs.game.toJson), ("turn", .num gs.turn),
    ("board", gs.board.toJson), ("you", gs.you.toJson)]

/-- Empty JSON object body. -/
def emptyBody : Json := .obj []

/-- Sample full GameState whose snake has health 0 and whose board holds
no food, used to instantiate the boundary scenario of the spec. -/
def deadYouNoFoodState : GameState :=
  let you : Snake :=
    { id := "snake-1", name := "Sneky", health := 0,
      body := [⟨0, 0⟩, ⟨1, 0⟩], latency := "450", head := ⟨0, 0⟩,
      length := 2, shout := "", squad := "",
      customizations :=
        { apiversion := "1", author := none, color := none,
          head := none, tail := none, version := none } }
  { game := { id := "game-1",
              ruleset := some { name := "standard", version := "v1.2.3" },
              timeout := 500 },
    turn := 7,
    board := { height := 11, width := 11, food := [], harzards := [],
               snakes := [you] },
    you := you }

end Battlesnake

namespace Battlesnake.V0

/-- Handler of GET / in src/unnamed/part_000: builds the constant
battlesnakeInfo record and sends it with status 200. -/
def battlesnakeInfo : SnakeInfo :=
  { apiversion := "1", author := some "", color := some "#888888",
    head := some "default", tail := some "default", version := none }

/-- handleIndex (src/unnamed/part_000 lines 18-27). -/
def handleIndex (request : Json) : Nat × SnakeInfo :=
  (200, battlesnakeInfo)

/-- handleStart (src/unnamed/part_000 lines 29-34): reads the body into
gameData, which is never used, and sends "ok" with status 200. -/
def handleStart (request : Json) : Nat × String :=
  (200, "ok")

/-- handleMove (src/unnamed/part_000 lines 36-46): ignores the body,
indexes possibleMoves at floor(random * 4), and sends a Move object that
has only the move field. -/
def handleMove (request : Json) (r : ℚ) : Nat × Move :=
  (200, { move := selectMove r, shout := none })

/-- handleEnd (src/unnamed/part_000 lines 48-53). -/
def handleEnd (request : Json) : Nat × String :=
  (200, "ok")

/-- Route dispatch of src/unnamed/part_000 lines 11-14. -/
def handleRequest : Req → Nat × RespBody
  | .index body => ((handleIndex body).1, .info (handleIndex body).2)
  | .start body => ((handleStart body).1, .text (handleStart body).2)
  | .move body r => ((handleMove body r).1, .moveResp (handleMove body r).2)
  | .endGame body => ((handleEnd body).1, .text (handleEnd body).2)

/-- Console log lines a handler emits, its only effect besides the
response. A move whose array lookup missed would print undefined. -/
def consoleLog : Req → List String
  | .index _ => []
  | .start _ => ["START"]
  | .move _ r =>
      ["MOVE: " ++ (match selectMove r with
        | some d => d.toString
        | none => "undefined")]
  | .endGame _ => ["END"]

/-- Server loop over a request sequence: the console log is the only
mutable sink the handlers write; each request yields one response. -/
def serve (log : List String) : List Req → List String × List (Nat × RespBody)
  | [] => (log, [])
  | req :: rest =>
      let resp := handleRequest req
      let result := serve (log ++ consoleLog req) rest
      (result.1, resp :: result.2)

/-- Startup log line of src/unnamed/part_000 line 16. -/
def listenLog (port : PortValue) : String :=
  "TypeScript Battlesnake Server listening at http://127.0.0.1:" ++
    (match port with | .str s => s | .num n => Nat.repr n)

end Battlesnake.V0

namespace Battlesnake.V1

/-- Constant info record of handleIndex in src/unnamed/part_001. -/
def battlesnakeInfo : SnakeInfo :=
  { apiversion := "1", author := some "", color := some "#888888",
    head := some "default", tail := some "default", version := none }

/-- handleIndex (src/unnamed/part_001 lines 19-28). -/
def handleIndex (request : Json) : Nat × SnakeInfo :=
  (200, battlesnakeInfo)

/-- handleStart (src/unnamed/part_001 lines 30-35). -/
def handleStart (request : Json) : Nat × String :=
  (200, "ok")

/-- handleMove (src/unnamed/part_001 lines 37-47). -/
def handleMove (request : Json) (r : ℚ) : Nat × Move :=
  (200, { move := selectMove r, shout := none })

/-- handleEnd (src/unnamed/part_001 lines 49-54). -/
def handleEnd (request : Json) : Nat × String :=
  (200, "ok")

/-- Route dispatch of src/unnamed/part_001 lines 11-14. -/
def handleRequest : Req → Nat × RespBody
  | .index body => ((handleIndex body).1, .info (handleIndex body).2)
  | .start body => ((handleStart body).1, .text (handleStart body).2)
  | .move body r => ((handleMove body r).1, .moveResp (handleMove body r).2)
  | .endGame body => ((handleEnd body).1, .text (handleEnd body).2)

/-- Console log lines a handler of the second variant emits. -/
def consoleLog : Req → List String
  | .index _ => []
  | .start _ => ["START"]
  | .move _ r =>
      ["MOVE: " ++ (match selectMove r with
        | some d => d.toString
        | none => "undefined")]
  | .endGame _ => ["END"]

/-- Server loop of the second variant. -/
def serve (log : List String) : List Req → List String × List (Nat × RespBody)
  | [] => (log, [])
  | req :: rest =>
      let resp := handleRequest req
      let result := serve (log ++ consoleLog req) rest
      (result.1, resp :: result.2)

/-- Startup log line of src/unnamed/part_001 line 16, the one observable
place the two variants differ. -/
def listenLog (port : PortValue) : String :=
  "Battlesnake Server listening at http://127.0.0.1:" ++
    (match port with | .str s => s | .num n => Nat.repr n)

end Battlesnake.V1

namespace Battlesnake

/-- Position in the possibleMoves array at which each direction sits. -/
def dirIndex : Direction → Int
  | .up => 0
  | .down => 1
  | .left => 2
  | .right => 3

lemma arrayGet_possibleMoves (i : Int) :
    arrayGet possibleMoves i =
      if i = 0 then some Direction.up
      else if i = 1 then some Direction.down
      else if i = 2 then some Direction.left
      else if i = 3 then some Direction.right
      else none := by
  unfold arrayGet possibleMoves
  rcases i with n | n
  · simp only [Int.ofNat_eq_coe]
    match n with
    | 0 => rfl
    | 1 => rfl
    | 2 => rfl
    | 3 => rfl
    | n + 4 =>
      have h1 : ¬ (((n + 4 : ℕ) : ℤ) < 0) := by omega
      rw [if_neg h1]
      have h2 : ((n + 4 : ℕ) : ℤ).toNat = n + 4 := rfl
      rw [h2]
      rw [if_neg (by omega), if_neg (by omega), if_neg (by omega),
        if_neg (by omega)]
      simp
  · simp only [Int.negSucc_eq]
    have h1 : -((n : ℤ) + 1) < 0 := by omega
    rw [if_pos h1]
    rw [if_neg (by omega), if_neg (by omega), if_neg (by omega),
      if_neg (by omega)]

lemma arrayGet_eq_some_iff (i : Int) (d : Direction) :
    arrayGet possibleMoves i = some d ↔ i = dirIndex d := by
  rw [arrayGet_possibleMoves]
  constructor
  · intro h
    split_ifs at h with h0 h1 h2 h3
    · cases Option.some.inj h
      simpa [dirIndex] using h0
    · cases Option.some.inj h
      simpa [dirIndex] using h1
    · cases Option.some.inj h
      simpa [dirIndex] using h2
    · cases Option.some.inj h
      simpa [dirIndex] using h3
  · intro h
    subst h
    cases d <;> simp [dirIndex]

lemma selectMove_eq_iff_floor (r : ℚ) (d : Direction) :
    selectMove r = some d ↔ ⌊r * 4⌋ = dirIndex d := by
  rw [selectMove]
  exact arrayGet_eq_some_iff _ _

lemma floor_quarter_iff (r : ℚ) (k : Int) :
    ⌊r * 4⌋ = k ↔ (k : ℚ) / 4 ≤ r ∧ r < ((k : ℚ) + 1) / 4 := by
  rw [Int.floor_eq_iff]
  constructor <;> rintro ⟨a, b⟩ <;> constructor <;> linarith

end Battlesnake

namespace BattlesnakeClaims
open Battlesnake

/-- Claim C1: for every request to the move handler, the selected move is a
member of the four directions and the selection cannot fail: indexing the
fixed 4-element direction array with floor(r * 4), for any draw r in
[0,1), is always in bounds, so an undefined move is unreachable. -/
theorem moveSelector_always_in_bounds :
    ∀ (body : Json) (r : ℚ), 0 ≤ r → r < 1 →
      ∃ d : Direction,
        (V0.handleMove body r).2.move = some d ∧
        (V1.handleMove body r).2.move = some d ∧
        (d = .up ∨ d = .down ∨ d = .left ∨ d = .right) := by
  intro body r h0 h1
  have hge : (0 : Int) ≤ ⌊r * 4⌋ := Int.floor_nonneg.mpr (by linarith)
  have hlt : ⌊r * 4⌋ < 4 := Int.floor_lt.mpr (by push_cast; linarith)
  have hcases : ⌊r * 4⌋ = 0 ∨ ⌊r * 4⌋ = 1 ∨ ⌊r * 4⌋ = 2 ∨ ⌊r * 4⌋ = 3 := by
    omega
  rcases hcases with h | h | h | h
  · exact ⟨.up, by simp [V0.handleMove, selectMove, arrayGet_possibleMoves, h],
      by simp [V1.handleMove, selectMove, arrayGet_possibleMoves, h],
      by tauto⟩
  · exact ⟨.down, by simp [V0.handleMove, selectMove, arrayGet_possibleMoves, h],
      by simp [V1.handleMove, selectMove, arrayGet_possibleMoves, h],
      by tauto⟩
  · exact ⟨.left, by simp [V0.handleMove, selectMove, arrayGet_possibleMoves, h],
      by simp [V1.handleMove, selectMove, arrayGet_possibleMoves, h],
      by tauto⟩
  · exact ⟨.right, by simp [V0.handleMove, selectMove, arrayGet_possibleMoves, h],
      by simp [V1.handleMove, selectMove, arrayGet_possibleMoves, h],
      by tauto⟩

/-- Witness for C1 at the concrete draw r = 1/3. -/
theorem moveSelector_always_in_bounds_witness :
    (0 : ℚ) ≤ 1/3 ∧ (1/3 : ℚ) < 1 ∧
      (∃ d : Direction,
        (V0.handleMove Json.null (1/3)).2.move = some d ∧
        (V1.handleMove Json.null (1/3)).2.move = some d ∧
        (d = .up ∨ d = .down ∨ d = .left ∨ d = .right)) :=
  ⟨by norm_num, by norm_num,
    moveSelector_always_in_bounds Json.null (1/3) (by norm_num) (by norm_num)⟩

/-- Claim C2: the move handler is a function of the random draw alone: any two
bodies (in particular the empty object and a full game state whose snake
has health 0 and whose board has no food) yield the same direction at the
same draw, with status 200. -/
theorem moveHandler_ignores_body :
    ∀ (b₁ b₂ : Json) (r : ℚ),
      V0.handleMove b₁ r = V0.handleMove b₂ r ∧
      V1.handleMove b₁ r = V1.handleMove b₂ r ∧
      (V0.handleMove b₁ r).1 = 200 ∧
      (V1.handleMove b₁ r).1 = 200 ∧
      V0.handleMove emptyBody r =
        V0.handleMove (GameState.toJson deadYouNoFoodState) r ∧
      V1.handleMove emptyBody r =
        V1.handleMove (GameState.toJson deadYouNoFoodState) r :=
  fun _ _ _ => ⟨rfl, rfl, rfl, rfl, rfl, rfl⟩

/-- Claim C3: the move selector is uniform: the preimage of each direction
under the map sending the draw r in [0,1) to the selected move is an
interval of length exactly 1/4. -/
theorem moveSelector_uniform_quarters :
    ∀ d : Direction, ∃ lo hi : ℚ,
      { r : ℚ | 0 ≤ r ∧ r < 1 ∧ selectMove r = some d } = Set.Ico lo hi ∧
      hi - lo = 1/4 := by
  intro d
  cases d with
  | up =>
    refine ⟨0, 1/4, ?_, by norm_num⟩
    ext r
    simp only [Set.mem_setOf_eq, Set.mem_Ico, selectMove_eq_iff_floor,
      dirIndex, floor_quarter_iff]
    push_cast
    constructor
    · rintro ⟨h0, h1, h2, h3⟩
      constructor <;> linarith
    · rintro ⟨h0, h1⟩
      refine ⟨by linarith, by linarith, by linarith, by linarith⟩
  | left =>
    refine ⟨1/2, 3/4, ?_, by norm_num⟩
    ext r
    simp only [Set.mem_setOf_eq, Set.mem_Ico, selectMove_eq_iff_floor,
      dirIndex, floor_quarter_iff]
    push_cast
    constructor
    · rintro ⟨h0, h1, h2, h3⟩
      constructor <;> linarith
    · rintro ⟨h0, h1⟩
      refine ⟨by linarith, by linarith, by linarith, by linarith⟩
  | down =>
    refine ⟨1/4, 1/2, ?_, by norm_num⟩
    ext r
    simp only [Set.mem_setOf_eq, Set.mem_Ico, selectMove_eq_iff_floor,
      dirIndex, floor_quarter_iff]
    push_cast
    constructor
    · rintro ⟨h0, h1, h2, h3⟩
      constructor <;> linarith
    · rintro ⟨h0, h1⟩
      refine ⟨by linarith, by linarith, by linarith, by linarith⟩
  | right =>
    refine ⟨3/4, 1, ?_, by norm_num⟩
    ext r
    simp only [Set.mem_setOf_eq, Set.mem_Ico, selectMove_eq_iff_floor,
      dirIndex, floor_quarter_iff]
    push_cast
    constructor
    · rintro ⟨h0, h1, h2, h3⟩
      constructor <;> linarith
    · rintro ⟨h0, h1⟩
      refine ⟨by linarith, by linarith, by linarith, by linarith⟩

/-- Claim C4: the informational endpoint returns the fixed SnakeInfo record
(apiversion "1", color "#888888", head "default", tail "default") with
status 200, independent of the request, in both variants. -/
theorem indexHandler_constant_response :
    ∀ request : Json,
      V0.handleIndex request = (200, V0.battlesnakeInfo) ∧
      V1.handleIndex request = (200, V1.battlesnakeInfo) ∧
      V0.battlesnakeInfo = V1.battlesnakeInfo ∧
      V0.battlesnakeInfo.apiversion = "1" ∧
      V0.battlesnakeInfo.color = some "#888888" ∧
      V0.battlesnakeInfo.head = some "default" ∧
      V0.battlesnakeInfo.tail = some "default" :=
  fun _ => ⟨rfl, rfl, rfl, rfl, rfl, rfl, rfl⟩

/-- Claim C5: every body posted to /start and to /end is answered with exactly
the text "ok" and status 200, in both variants. -/
theorem startEnd_respond_ok :
    ∀ body : Json,
      V0.handleStart body = (200, "ok") ∧
      V0.handleEnd body = (200, "ok") ∧
      V1.handleStart body = (200, "ok") ∧
      V1.handleEnd body = (200, "ok") :=
  fun _ => ⟨rfl, rfl, rfl, rfl⟩

/-- Claim C6: the listening port is determined by the PORT environment variable
alone, and an unset variable yields the default 3000. -/
theorem port_from_env_with_default :
    (∀ env₁ env₂ : String → Option String,
        env₁ "PORT" = env₂ "PORT" → PORT env₁ = PORT env₂) ∧
    (∀ env : String → Option String,
        env "PORT" = none → PORT env = PortValue.num 3000) := by
  constructor
  · intro e₁ e₂ h
    unfold PORT
    rw [h]
  · intro env h
    unfold PORT
    rw [h]

/-- Witness for C6 at the empty environment. -/
theorem port_from_env_with_default_witness :
    ((fun _ : String => (none : Option String)) "PORT" = none) ∧
    PORT (fun _ : String => none) = PortValue.num 3000 :=
  ⟨rfl, port_from_env_with_default.2 (fun _ : String => none) rfl⟩

/-- Claim C7: the handlers write no shared mutable state (the console log is
append-only output), so over any request sequence each response is a
function of its own request alone, independent of the requests handled
before it and of the accumulated log. -/
theorem handlers_stateless :
    ∀ (log : List String) (reqs : List Req),
      (V0.serve log reqs).2 = reqs.map V0.handleRequest ∧
      (V1.serve log reqs).2 = reqs.map V1.handleRequest := by
  intro log reqs
  constructor
  · induction reqs generalizing log with
    | nil => rfl
    | cons req rest ih => simp [V0.serve, ih]
  · induction reqs generalizing log with
    | nil => rfl
    | cons req rest ih => simp [V1.serve, ih]

/-- Claim C8: the two server variants are observationally equivalent: every
request with the same random draw gets the identical status code and
response body from both. -/
theorem variants_observationally_equal :
    ∀ req : Req, V0.handleRequest req = V1.handleRequest req := by
  intro req
  cases req <;> rfl

/-- Claim C9: the move response carries only the move field, never a shout, so
the 256-character shout bound holds vacuously. -/
theorem moveHandler_never_shouts :
    ∀ (body : Json) (r : ℚ),
      (V0.handleMove body r).2.shout = none ∧
      (V1.handleMove body r).2.shout = none ∧
      (∀ s : String, (V0.handleMove body r).2.shout = some s →
        s.length ≤ 256) ∧
      (∀ s : String, (V1.handleMove body r).2.shout = some s →
        s.length ≤ 256) := by
  intro body r
  refine ⟨rfl, rfl, ?_, ?_⟩ <;> intro s h <;>
    simp [V0.handleMove, V1.handleMove] at h

/-- Witness for C9 at the null body and draw 0. -/
theorem moveHandler_never_shouts_witness :
    (V0.handleMove Json.null 0).2.shout = none ∧
    (V1.handleMove Json.null 0).2.shout = none ∧
    (∀ s : String, (V0.handleMove Json.null 0).2.shout = some s →
      s.length ≤ 256) ∧
    (∀ s : String, (V1.handleMove Json.null 0).2.shout = some s →
      s.length ≤ 256) :=
  moveHandler_never_shouts Json.null 0

/-- Claim C10: the port default applies both when PORT is unset and when it is
set to the empty string, because the falsy-or fallback does not
distinguish the two. -/
theorem port_default_on_empty_or_unset :
    PORT (fun _ : String => none) = PortValue.num 3000 ∧
    PORT (fun k : String => if k = "PORT" then some "" else none) =
      PortValue.num 3000 := by
  constructor
  · rfl
  · simp [PORT]

end BattlesnakeClaims
